import Mathlib

/-! Verification of the executive-search conversation core.

A shallow embedding of the conversation-orchestration core of the
`executive-ai-mvp` repository, together with proofs of the specified
properties.

The repository ships the React/TypeScript UI layer (`ui/src/...`); the
backend conversation core (orchestrator, requirements extractor, question
generator, progress tracker) is declared by the design documents but its
Python sources are not part of the file set, so those components are
modelled from the specification text.  The UI-layer definitions
(`MessageInput`, `chatApi`, the chat types) are translated directly from
the TypeScript sources.
-/

namespace ExecAI

/-- Modelled from the spec (§3): dialogue-progress phase of a conversation.
The backend model module (`backend/src/models/conversation.py`) is not in
the file set. -/
inductive ConversationPhase
  | initialPhase
  | questioning
  | completed
  | errorPhase
  deriving DecidableEq, Repr

/-- Modelled from the spec (§3): lifecycle/liveness status of a conversation
(`ACTIVE`, `PAUSED`, `COMPLETED`, `ABANDONED`); the backend model module is
not in the file set. -/
inductive ConversationStatus
  | active
  | paused
  | completed
  | abandoned
  deriving DecidableEq, Repr

/-- Modelled from the spec (§3): category of a follow-up question. -/
inductive QuestionCategory
  | culturalFit
  | experience
  | dealBreaker
  | other
  deriving DecidableEq, Repr

/-- Modelled from the spec (§3): one follow-up question item. -/
structure Question where
  id : String
  text : String
  category : QuestionCategory
  deriving DecidableEq, Repr

/-- Modelled from the spec (§3): the structured extraction result. -/
structure JobRequirements where
  role_title : Option String
  company_name : Option String
  company_stage : Option String
  quantitative_targets : List String
  stated_subjective_criteria : List String
  deriving DecidableEq, Repr

/-- Modelled from the spec (§3): the Conversation aggregate root.  `answers`
is the insertion-ordered mapping from question identifier to answer text. -/
structure Conversation where
  id : String
  phase : ConversationPhase
  status : ConversationStatus
  requirements : Option JobRequirements
  question_queue : List Question
  current_index : Nat
  answers : List (String × String)
  version : Nat
  deriving DecidableEq, Repr

/-- Modelled from the spec (§4.1): a conversation freshly created by the
orchestrator when no `conversation_id` is supplied: phase `INITIAL`,
status `ACTIVE`, version 0, no requirements, no queue. -/
def createConversation (id : String) : Conversation :=
  { id := id
    phase := .initialPhase
    status := .active
    requirements := none
    question_queue := []
    current_index := 0
    answers := []
    version := 0 }

/-- Modelled from the spec (§4.4): result record of the ProgressTracker. -/
structure ProgressInfo where
  current_question : Nat
  total_questions : Nat
  progress_percentage : ℚ
  is_complete : Bool
  deriving DecidableEq, Repr

/-- Clamp a rational to the interval [0, 100]. -/
def clampPercent (x : ℚ) : ℚ :=
  if x ≤ 0 then 0 else if 100 ≤ x then 100 else x

/-- Modelled from the spec (§4.4): the pure ProgressTracker.
`progress_percentage = current_index / max(total_questions, 1) * 100`,
clamped to [0, 100]; `is_complete = (phase == COMPLETED)`.  The backend
progress-tracking module is not in the file set. -/
def progress (c : Conversation) : ProgressInfo :=
  { current_question := c.current_index
    total_questions := c.question_queue.length
    progress_percentage :=
      clampPercent ((c.current_index : ℚ) /
        ((Nat.max c.question_queue.length 1 : Nat) : ℚ) * 100)
    is_complete := decide (c.phase = .completed) }

/-- Modelled from the spec (§7): the domain-error taxonomy of the
orchestrator visible in a single `handle` call. -/
inductive HandleError
  | conversationClosed
  | extractionFailure
  | generationFailure
  deriving DecidableEq, Repr

/-- Modelled from the spec (§6): the `StartOrContinue` response payload. -/
structure HandleResponse where
  conversation_id : String
  phase : ConversationPhase
  status : ConversationStatus
  response_content : String
  progress : ProgressInfo
  next_question : Option String
  is_complete : Bool
  deriving DecidableEq, Repr

/-- Placeholder question used when indexing outside the queue; under the
phase/queue invariant it is never selected. -/
def defaultQuestion : Question :=
  { id := "", text := "", category := .other }

/-- Build the response payload for an updated conversation entity. -/
def buildResponse (c : Conversation) (content : String) (nq : Option String) :
    HandleResponse :=
  { conversation_id := c.id
    phase := c.phase
    status := c.status
    response_content := content
    progress := progress c
    next_question := nq
    is_complete := decide (c.phase = .completed) }

/-- Modelled from the spec (§4.1): the generation half of the `INITIAL`
step.  Requirements `req` were just extracted; the generated queue decides
whether the conversation completes immediately (empty queue) or enters
`QUESTIONING` at index 0.  On generation failure the entity keeps all
pre-call data and only moves to phase `ERROR`; `version` is not advanced. -/
def runGenerationStep (c : Conversation) (req : JobRequirements)
    (gen : JobRequirements → Except Unit (List Question)) :
    Except HandleError HandleResponse × Conversation :=
  match gen req with
  | .error _ => (.error .generationFailure, { c with phase := .errorPhase })
  | .ok [] =>
    let c' : Conversation :=
      { c with phase := .completed
               status := .completed
               requirements := some req
               question_queue := []
               current_index := 0
               version := c.version + 1 }
    (.ok (buildResponse c' "Requirements captured." none), c')
  | .ok (q :: qs) =>
    let c' : Conversation :=
      { c with phase := .questioning
               requirements := some req
               question_queue := q :: qs
               current_index := 0
               version := c.version + 1 }
    (.ok (buildResponse c' "Requirements captured." (some q.text)), c')

/-- Modelled from the spec (§4.1): the `INITIAL` step — extract the
requirements from the message, then generate the question queue.  On
extraction failure the entity keeps all pre-call data and only moves to
phase `ERROR`; `version` is not advanced. -/
def runInitialStep (c : Conversation) (message : String)
    (ext : String → Except Unit JobRequirements)
    (gen : JobRequirements → Except Unit (List Question)) :
    Except HandleError HandleResponse × Conversation :=
  match ext message with
  | .error _ => (.error .extractionFailure, { c with phase := .errorPhase })
  | .ok req => runGenerationStep c req gen

/-- Modelled from the spec (§4.1): the `QUESTIONING` step — record the
message as the answer to `question_queue[current_index]`, increment the
index, and complete when the queue is exhausted. -/
def runQuestioningStep (c : Conversation) (message : String) :
    Except HandleError HandleResponse × Conversation :=
  let answered := c.answers ++ [((c.question_queue.getD c.current_index defaultQuestion).id, message)]
  let newIndex := c.current_index + 1
  if newIndex = c.question_queue.length then
    let c' : Conversation :=
      { c with phase := .completed
               status := .completed
               answers := answered
               current_index := newIndex
               version := c.version + 1 }
    (.ok (buildResponse c' "All questions answered." none), c')
  else
    let c' : Conversation :=
      { c with answers := answered
               current_index := newIndex
               version := c.version + 1 }
    (.ok (buildResponse c'
      "Answer recorded."
      (some ((c.question_queue.getD newIndex defaultQuestion).text))), c')

/-- Modelled from the spec (§4.1): the orchestrator's dispatch on the
current phase of an already-loaded conversation entity.  The collaborator
calls (RequirementsExtractor, QuestionGenerator) are passed as
`Except`-valued functions.  Returns the response (or domain error) together
with the updated entity handed to the store.  In phase `ERROR` the same
step that failed is re-attempted: extraction when no requirements were
stored, otherwise generation from the stored requirements. -/
def handle (c : Conversation) (message : String)
    (ext : String → Except Unit JobRequirements)
    (gen : JobRequirements → Except Unit (List Question)) :
    Except HandleError HandleResponse × Conversation :=
  match c.phase with
  | .initialPhase => runInitialStep c message ext gen
  | .questioning => runQuestioningStep c message
  | .completed => (.error .conversationClosed, c)
  | .errorPhase =>
    match c.requirements with
    | none => runInitialStep c message ext gen
    | some req => runGenerationStep c req gen

/-- `true` on the successful side of a `handle` outcome. -/
def isSuccess : Except HandleError HandleResponse → Bool
  | .ok _ => true
  | .error _ => false

/-- Modelled from the spec (§6): `ConversationStore.save(entity,
expected_version)` with optimistic-concurrency semantics — the write is
rejected (`ConflictError`) when the stored version no longer matches the
expected one, and no change is applied. -/
def saveConversation (stored : Conversation) (entity : Conversation)
    (expectedVersion : Nat) : Except Unit Conversation :=
  if stored.version = expectedVersion then .ok entity else .error ()

/-- Sanity conditions satisfied by every conversation reachable through the
orchestrator: in `QUESTIONING` the index points at an existing question,
and before the queue exists (`INITIAL`/`ERROR`) the index is 0. -/
def wellFormed (c : Conversation) : Prop :=
  (c.phase = .questioning → c.current_index < c.question_queue.length) ∧
  ((c.phase = .initialPhase ∨ c.phase = .errorPhase) → c.current_index = 0)

instance (c : Conversation) : Decidable (wellFormed c) := by
  unfold wellFormed; infer_instance

/-- The §3 phase/queue invariant: `COMPLETED` iff the index equals the
queue length, `QUESTIONING` iff the index is strictly inside the queue;
additionally reaching `COMPLETED` sets lifecycle status `COMPLETED`. -/
def phaseQueueInvariant (c : Conversation) : Prop :=
  (c.phase = .completed ↔ c.current_index = c.question_queue.length) ∧
  (c.phase = .questioning ↔ c.current_index < c.question_queue.length) ∧
  (c.phase = .completed → c.status = .completed)

/-- Modelled from the spec (§4.3): keyword list for the look-up-able
filter (public/company data such as revenue, headcount, funding round). -/
def researchableKeywords : List String :=
  ["revenue", "headcount", "funding", "valuation", "company size"]

/-- `true` when `kw` occurs as a substring of `text`. -/
def containsKeyword (text kw : String) : Bool :=
  (text.splitOn kw).length > 1

/-- Modelled from the spec (§4.3): pure, deterministic predicate over
question text marking questions answerable from public/company data. -/
def isResearchable (q : Question) : Bool :=
  researchableKeywords.any (containsKeyword q.text)

/-- Modelled from the spec (§4.3): a candidate question already answered by
content present in `stated_subjective_criteria` of the extraction result. -/
def answeredByCriteria (req : JobRequirements) (q : Question) : Bool :=
  req.stated_subjective_criteria.contains q.text

/-- Modelled from the spec (§4.3/§8): keep only the first question bearing
each text, preserving generation order. -/
def dedupByText : List Question → List Question
  | [] => []
  | q :: qs => q :: dedupByText (qs.filter (fun r => decide (r.text ≠ q.text)))
termination_by l => l.length
decreasing_by
  simp only [List.length_cons]
  exact Nat.lt_succ_of_le (List.length_filter_le _ _)

/-- Modelled from the spec (§4.3): the candidates surviving the
look-up-able filter, the dedup against `stated_subjective_criteria`, and
the dedup of identical texts, in generation order. -/
def survivingCandidates (req : JobRequirements) (candidates : List Question) :
    List Question :=
  dedupByText
    ((candidates.filter (fun q => !isResearchable q)).filter
      (fun q => !answeredByCriteria req q))

/-- Modelled from the spec (§4.3): `QuestionGenerator.generate` applied to
the raw candidate list produced by the language model — filter, dedup, and
truncate deterministically to the first 5 in generation order.  The backend
question-generation module is not in the file set. -/
def generate (req : JobRequirements) (candidates : List Question) :
    List Question :=
  (survivingCandidates req candidates).take 5

/-! ## Frontend embeddings (`ui/src/...`), translated from the TypeScript
sources. -/

/-- `ui/src/types/chat.ts` line 11: the `ConversationPhase` union. -/
inductive TsConversationPhase
  | initial
  | questioning
  | completed
  | error
  deriving DecidableEq, Repr

/-- JSON string literal of a `TsConversationPhase` value. -/
def tsPhaseString : TsConversationPhase → String
  | .initial => "initial"
  | .questioning => "questioning"
  | .completed => "completed"
  | .error => "error"

/-- `ui/src/types/chat.ts` line 12: the `ConversationStatus` union,
`'active' | 'completed' | 'error'`. -/
inductive TsConversationStatus
  | active
  | completed
  | error
  deriving DecidableEq, Repr

/-- JSON string literal of a `TsConversationStatus` value. -/
def tsConversationStatusString : TsConversationStatus → String
  | .active => "active"
  | .completed => "completed"
  | .error => "error"

/-- `ui/src/services/api.ts` lines 16-23: the `status` union of the
frontend `ConversationProgress` interface,
`"active" | "paused" | "completed" | "abandoned"`. -/
inductive TsProgressStatus
  | active
  | paused
  | completed
  | abandoned
  deriving DecidableEq, Repr

/-- JSON string literal of a `TsProgressStatus` value. -/
def tsProgressStatusString : TsProgressStatus → String
  | .active => "active"
  | .paused => "paused"
  | .completed => "completed"
  | .abandoned => "abandoned"

/-- `ui/src/types/chat.ts`: the `MessageRole` union. -/
inductive TsMessageRole
  | user
  | assistant
  | system
  deriving DecidableEq, Repr

/-- `ui/src/types/chat.ts`: the `Message` interface (the `Date` timestamp
is modelled as its string rendering). -/
structure TsMessage where
  id : String
  role : TsMessageRole
  content : String
  timestamp : String
  deriving DecidableEq, Repr

/-- `ui/src/types/chat.ts` lines 14-20: the frontend
`ConversationProgress` interface. -/
structure TsConversationProgress where
  phase : String
  current_question : Int
  total_questions : Int
  progress_percentage : ℚ
  is_complete : Bool
  deriving DecidableEq, Repr

/-- `ui/src/types/chat.ts` lines 27-36: the `ConversationResponse`
interface. -/
structure TsConversationResponse where
  conversation_id : String
  phase : TsConversationPhase
  status : TsConversationStatus
  response_content : String
  progress : TsConversationProgress
  next_question : Option String
  is_complete : Bool
  timestamp : String
  deriving DecidableEq, Repr

/-- `ui/src/types/chat.ts` lines 38-47: the `ConversationState` held by
`ChatContainer`. -/
structure TsConversationState where
  conversation_id : Option String
  phase : TsConversationPhase
  status : TsConversationStatus
  messages : List TsMessage
  progress : Option TsConversationProgress
  current_question : Option String
  isLoading : Bool
  error : Option String
  deriving DecidableEq, Repr

/-- `ui/src/services/api.ts`: the `ChatResponse` interface. -/
structure ChatResponse where
  id : String
  role : TsMessageRole
  content : String
  timestamp : String
  deriving DecidableEq, Repr

/-- The shape of a decoded JSON error body as used by `chatApi`: only the
optional `detail` field is ever read (`errorData.detail`). -/
structure JsErrorBody where
  detail : Option String
  deriving DecidableEq, Repr

/-- `ui/src/services/api.ts` lines 25-34: the `ApiError` class.  Its
`response` payload is the decoded error body when one was attached. -/
structure ApiError where
  message : String
  status : Nat
  response : Option JsErrorBody
  deriving DecidableEq, Repr

/-- One `fetch` `Response` as observed by `chatApi`: the `ok` flag, the
HTTP status and status text, and the outcome of `response.json()` on the
two paths on which it is invoked (decoding the error body on a non-OK
response, decoding the typed payload on an OK response); `.error` marks a
rejected `json()` promise. -/
structure HttpResponse (α : Type) where
  ok : Bool
  status : Nat
  statusText : String
  errorJson : Except Unit JsErrorBody
  okJson : Except Unit α

/-- `response.json().catch(() => ({}))`: the decoded error body, or the
empty object when decoding fails. -/
def errorBodyOf (x : Except Unit JsErrorBody) : JsErrorBody :=
  match x with
  | .ok b => b
  | .error _ => { detail := none }

/-- JavaScript `a || b` over the optional `detail` string: `undefined` and
the empty string are falsy. -/
def jsDetailOr (d : Option String) (fallback : String) : String :=
  match d with
  | some s => if s = "" then fallback else s
  | none => fallback

/-- `ui/src/services/api.ts`: the fixed message of the status-0
connection-failure `ApiError`. -/
def connectionFailureMessage : String :=
  "Failed to connect to the server. Please check your connection and try again."

/-- `ui/src/services/api.ts`: the fallback message
`` `HTTP ${response.status}: ${response.statusText}` ``. -/
def httpStatusMessage (status : Nat) (statusText : String) : String :=
  "HTTP " ++ toString status ++ ": " ++ statusText

/-- `ui/src/services/api.ts`: the shared try/fetch/catch body of
`sendMessage`, `sendConversationMessage` and `getConversationProgress`.
The argument is the outcome of `fetch` itself (`.error` = the promise
rejected, e.g. a network failure).  A non-OK response throws an `ApiError`
built from the decoded error body and the HTTP status; that `ApiError`
passes through the catch block unchanged (`error instanceof ApiError`);
every other thrown value is replaced in the catch block by the status-0
connection-failure `ApiError`. -/
def fetchJson {α : Type} (result : Except Unit (HttpResponse α)) :
    Except ApiError α :=
  match result with
  | .error _ =>
    .error { message := connectionFailureMessage, status := 0, response := none }
  | .ok r =>
    if r.ok then
      match r.okJson with
      | .ok data => .ok data
      | .error _ =>
        .error { message := connectionFailureMessage, status := 0, response := none }
    else
      let errorData := errorBodyOf r.errorJson
      .error { message := jsDetailOr errorData.detail (httpStatusMessage r.status r.statusText)
               status := r.status
               response := some errorData }

/-- `ui/src/services/api.ts`: `chatApi.sendMessage`, applied to the
observed transport outcome. -/
def sendMessage (result : Except Unit (HttpResponse ChatResponse)) :
    Except ApiError ChatResponse :=
  fetchJson result

/-- `ui/src/services/api.ts` lines 71-102: `chatApi.sendConversationMessage`,
applied to the observed transport outcome. -/
def sendConversationMessage
    (result : Except Unit (HttpResponse TsConversationResponse)) :
    Except ApiError TsConversationResponse :=
  fetchJson result

/-- Whitespace as stripped by JavaScript `String.prototype.trim`
(ASCII whitespace, NBSP and the BOM cover every character exercised by
this UI). -/
def isJsWhitespace (c : Char) : Bool :=
  c = ' ' || c = '\t' || c = '\n' || c = '\r' || c = '\x0b' || c = '\x0c' ||
    c = '\u00A0' || c = '\uFEFF'

/-- `true` when the list does not start with a JS whitespace character. -/
def noLeadingWs : List Char → Bool
  | [] => true
  | c :: _ => !isJsWhitespace c

/-- Strip leading and trailing JS whitespace from a character list. -/
def trimChars (l : List Char) : List Char :=
  ((l.dropWhile isJsWhitespace).reverse.dropWhile isJsWhitespace).reverse

/-- JavaScript `message.trim()`. -/
def jsTrim (s : String) : String :=
  ⟨trimChars s.data⟩

/-- `ui/src/components/MessageInput.tsx` lines 13-19: `handleSubmit` —
when the trimmed input is truthy (non-empty) and the form is not disabled,
send the trimmed text and clear the field; otherwise send nothing and
leave the field as it is.  Returns (message sent, input-field state after
the call). -/
def handleSubmit (message : String) (disabled : Bool) :
    Option String × String :=
  if !(jsTrim message == "") && !disabled then
    (some (jsTrim message), "")
  else
    (none, message)

/-- `ui/src/components/ChatContainer.tsx` line 120: the `disabled` prop
handed to `MessageInput` —
`conversationState.isLoading || conversationState.phase === 'completed'`. -/
def chatInputDisabled (isLoading : Bool) (phase : TsConversationPhase) : Bool :=
  isLoading || decide (phase = .completed)

/-- Response used as the default of `responseOf`; never selected on a
successful `handle` outcome. -/
def emptyResponse : HandleResponse :=
  buildResponse (createConversation "") "" none

/-- Project the response out of a successful `handle` outcome. -/
def responseOf (x : Except HandleError HandleResponse) : HandleResponse :=
  match x with
  | .ok r => r
  | .error _ => emptyResponse

/-! ## Concrete fixtures used by the witnesses. -/

/-- Requirements extracted from the running example of the spec (§8,
Example 1). -/
def exampleRequirements : JobRequirements :=
  { role_title := some "VP of Sales"
    company_name := some "FlowAI"
    company_stage := some "Series A fintech"
    quantitative_targets := ["2M to 10M ARR in 18 months"]
    stated_subjective_criteria := [] }

/-- First sample follow-up question. -/
def exampleQ1 : Question :=
  { id := "q1", text := "What leadership style fits the team?", category := .culturalFit }

/-- Second sample follow-up question. -/
def exampleQ2 : Question :=
  { id := "q2", text := "Which past scaling experience matters most?", category := .experience }

/-- Third sample follow-up question. -/
def exampleQ3 : Question :=
  { id := "q3", text := "What would be a deal breaker for this hire?", category := .dealBreaker }

/-- A conversation in `QUESTIONING` with a queue of length 3 at index 2
(spec §8, Example 2). -/
def exampleMidConversation : Conversation :=
  { id := "conv-1"
    phase := .questioning
    status := .active
    requirements := some exampleRequirements
    question_queue := [exampleQ1, exampleQ2, exampleQ3]
    current_index := 2
    answers := [("q1", "hands-on"), ("q2", "series A to C")]
    version := 5 }

/-- A freshly created conversation (spec §8, Example 3). -/
def exampleInitialConversation : Conversation :=
  createConversation "conv-new"

/-- A conversation already in phase `COMPLETED` (spec §8, Example 4). -/
def exampleCompletedConversation : Conversation :=
  { id := "conv-done"
    phase := .completed
    status := .completed
    requirements := some exampleRequirements
    question_queue := [exampleQ1]
    current_index := 1
    answers := [("q1", "hands-on")]
    version := 3 }

/-- An extractor that always succeeds with the example requirements. -/
def extractOk : String → Except Unit JobRequirements :=
  fun _ => .ok exampleRequirements

/-- An extractor that always fails (e.g. a language-model timeout). -/
def extractFail : String → Except Unit JobRequirements :=
  fun _ => .error ()

/-- A generator that always succeeds with a one-question queue. -/
def generateOk : JobRequirements → Except Unit (List Question) :=
  fun _ => .ok [exampleQ1]

/-- A generator that always fails. -/
def generateFail : JobRequirements → Except Unit (List Question) :=
  fun _ => .error ()

/-- A non-OK HTTP response carrying a decodable error body. -/
def exampleErrChat : HttpResponse ChatResponse :=
  { ok := false
    status := 404
    statusText := "Not Found"
    errorJson := .ok { detail := some "conversation not found" }
    okJson := .error () }

/-- A non-OK HTTP response whose error body cannot be decoded. -/
def exampleErrConv : HttpResponse TsConversationResponse :=
  { ok := false
    status := 500
    statusText := "Internal Server Error"
    errorJson := .error ()
    okJson := .error () }

/-- An OK HTTP response whose payload fails to decode. -/
def exampleBadJsonChat : HttpResponse ChatResponse :=
  { ok := true
    status := 200
    statusText := "OK"
    errorJson := .error ()
    okJson := .error () }

/-- An OK HTTP response whose payload fails to decode (conversation
endpoint). -/
def exampleBadJsonConv : HttpResponse TsConversationResponse :=
  { ok := true
    status := 200
    statusText := "OK"
    errorJson := .error ()
    okJson := .error () }

/-! ## Helper lemmas -/

theorem dedupByText_sublist : ∀ l : List Question, (dedupByText l).Sublist l
  | [] => by rw [dedupByText]
  | q :: qs => by
    rw [dedupByText]
    exact ((dedupByText_sublist _).trans (List.filter_sublist _)).cons₂ q
termination_by l => l.length
decreasing_by
  simp only [List.length_cons]
  exact Nat.lt_succ_of_le (List.length_filter_le _ _)

theorem dedupByText_pairwise :
    ∀ l : List Question,
      (dedupByText l).Pairwise (fun a b => a.text ≠ b.text)
  | [] => by rw [dedupByText]; exact List.Pairwise.nil
  | q :: qs => by
    rw [dedupByText]
    refine List.Pairwise.cons ?_ (dedupByText_pairwise _)
    intro b hb
    have hmem : b ∈ qs.filter (fun r => decide (r.text ≠ q.text)) :=
      (dedupByText_sublist _).mem hb
    have := List.of_mem_filter hmem
    simp only [decide_eq_true_eq] at this
    exact fun hqb => this hqb.symm
termination_by l => l.length
decreasing_by
  simp only [List.length_cons]
  exact Nat.lt_succ_of_le (List.length_filter_le _ _)

theorem noLeadingWs_dropWhile (l : List Char) :
    noLeadingWs (l.dropWhile isJsWhitespace) = true := by
  induction l with
  | nil => rfl
  | cons c t ih =>
    by_cases h : isJsWhitespace c = true
    · simpa [List.dropWhile_cons, h] using ih
    · simp [List.dropWhile_cons, h, noLeadingWs]

theorem noLeadingWs_trimChars (l : List Char) :
    noLeadingWs (trimChars l) = true := by
  have hm : noLeadingWs (l.dropWhile isJsWhitespace) = true :=
    noLeadingWs_dropWhile l
  unfold trimChars
  set m := l.dropWhile isJsWhitespace with hmdef
  have hsplit : m = (m.reverse.dropWhile isJsWhitespace).reverse ++
      (m.reverse.takeWhile isJsWhitespace).reverse := by
    conv_lhs => rw [← List.reverse_reverse m,
      ← List.takeWhile_append_dropWhile isJsWhitespace m.reverse]
    rw [List.reverse_append]
  cases hr : (m.reverse.dropWhile isJsWhitespace).reverse with
  | nil => rfl
  | cons c t =>
    rw [hr] at hsplit
    rw [hsplit] at hm
    simpa [noLeadingWs] using hm

theorem noLeadingWs_trimChars_reverse (l : List Char) :
    noLeadingWs (trimChars l).reverse = true := by
  unfold trimChars
  rw [List.reverse_reverse]
  exact noLeadingWs_dropWhile _

theorem clampPercent_eq (x : ℚ) : clampPercent x = min 100 (max 0 x) := by
  unfold clampPercent
  split_ifs with h1 h2
  · rw [max_eq_left h1, min_eq_right]; norm_num
  · rw [max_eq_right (le_of_lt (lt_of_not_le h1)), min_eq_left h2]
  · rw [max_eq_right (le_of_lt (lt_of_not_le h1)),
      min_eq_right (le_of_not_le h2)]

/-! ## Claim theorems -/

/-- Claim C8: for every `JobRequirements` input and every candidate list
produced by the model, the queue returned by `QuestionGenerator.generate`
has length at most 5, no two of its questions share the same `text`, it is
a subsequence of the candidates (so order is generation order and excess
candidates are dropped only by the deterministic filters and the take of
the first 5), and it equals exactly the first 5 surviving candidates. -/
theorem generate_bounds_and_distinct (req : JobRequirements)
    (candidates : List Question) :
    (generate req candidates).length ≤ 5 ∧
    (generate req candidates).Pairwise (fun a b => a.text ≠ b.text) ∧
    (generate req candidates).Sublist candidates ∧
    generate req candidates = (survivingCandidates req candidates).take 5 := by
  refine ⟨List.length_take_le 5 _, ?_, ?_, rfl⟩
  · exact (dedupByText_pairwise _).sublist (List.take_sublist 5 _)
  · exact ((List.take_sublist 5 _).trans (dedupByText_sublist _)).trans
      (((List.filter_sublist _).trans (List.filter_sublist _)))

/-- Claim C2: for every conversation, the pure `progress` function reports
the current index and queue length, a percentage equal to
`current_index / max(total_questions, 1) * 100` clamped to [0, 100] (hence
always within [0, 100]), and `is_complete` exactly when the phase is
`COMPLETED`; on a freshly created `INITIAL` conversation it returns
`{current_question := 0, total_questions := 0, progress_percentage := 0,
is_complete := false}`. -/
theorem progress_spec (c : Conversation) (i : String) :
    (progress c).current_question = c.current_index ∧
    (progress c).total_questions = c.question_queue.length ∧
    (progress c).progress_percentage =
      min 100 (max 0 ((c.current_index : ℚ) /
        max (c.question_queue.length : ℚ) 1 * 100)) ∧
    0 ≤ (progress c).progress_percentage ∧
    (progress c).progress_percentage ≤ 100 ∧
    ((progress c).is_complete = true ↔ c.phase = .completed) ∧
    progress (createConversation i) =
      { current_question := 0, total_questions := 0,
        progress_percentage := 0, is_complete := false } := by
  have hcast : ((Nat.max c.question_queue.length 1 : Nat) : ℚ) =
      max (c.question_queue.length : ℚ) 1 := by
    rw [show Nat.max c.question_queue.length 1 =
        max c.question_queue.length 1 from rfl,
      Nat.cast_max c.question_queue.length 1, Nat.cast_one]
  have hpct : (progress c).progress_percentage =
      min 100 (max 0 ((c.current_index : ℚ) /
        max (c.question_queue.length : ℚ) 1 * 100)) := by
    show clampPercent _ = _
    rw [clampPercent_eq, hcast]
  refine ⟨rfl, rfl, hpct, ?_, ?_, ?_, ?_⟩
  · rw [hpct]; exact le_min (by norm_num) (le_max_left 0 _)
  · rw [hpct]; exact min_le_left 100 _
  · simp [progress]
  · simp [progress, createConversation, clampPercent]

/-- Claim C3, counterexample: the claim says the conversation `status`
field takes only values in {ACTIVE, PAUSED, COMPLETED, ABANDONED}, but the
frontend `ConversationStatus` union (`ui/src/types/chat.ts` line 12)
admits the value `'error'`, which is outside that set. -/
theorem tsStatus_error_outside_claimed_set :
    ¬ (tsConversationStatusString TsConversationStatus.error ∈
        ["active", "paused", "completed", "abandoned"]) := by
  decide

/-- Claim C3 as amended: the frontend conversation `status`
(`ui/src/types/chat.ts` `ConversationStatus`) takes only values in
{active, completed, error}; the `status` of the frontend progress record
(`ui/src/services/api.ts` `ConversationProgress`) takes only values in
{active, paused, completed, abandoned}; and `status` is a field
independent of `phase` — every (phase, status) pair is representable in
the conversation state. -/
theorem ts_status_value_sets (s : TsConversationStatus)
    (p : TsProgressStatus) (ph : TsConversationPhase)
    (st : TsConversationStatus) :
    tsConversationStatusString s ∈ ["active", "completed", "error"] ∧
    tsProgressStatusString p ∈ ["active", "paused", "completed", "abandoned"] ∧
    ∃ cs : TsConversationState, cs.phase = ph ∧ cs.status = st := by
  refine ⟨?_, ?_, ⟨⟨none, ph, st, [], none, none, false, none⟩, rfl, rfl⟩⟩
  · cases s <;> simp [tsConversationStatusString]
  · cases p <;> simp [tsProgressStatusString]

/-- Claim C9: the message-input component submits exactly when the trimmed
input is non-empty and submission is not disabled; the message sent is the
trimmed text — which carries no leading or trailing whitespace — and the
input field is cleared to the empty string on a successful submit and left
unchanged otherwise. -/
theorem handleSubmit_spec (m : String) (d : Bool) :
    handleSubmit m d =
      (if jsTrim m ≠ "" ∧ d = false then (some (jsTrim m), "")
       else (none, m)) ∧
    noLeadingWs (jsTrim m).data = true ∧
    noLeadingWs (jsTrim m).data.reverse = true := by
  refine ⟨?_, noLeadingWs_trimChars m.data, noLeadingWs_trimChars_reverse m.data⟩
  by_cases h : jsTrim m = "" <;> cases d <;>
    simp [handleSubmit, h]

/-- Claim C1: after every successful `handle` call the phase/queue
invariant of §3 holds for the updated entity: `COMPLETED` iff
`current_index = len(question_queue)`, `QUESTIONING` iff
`current_index < len(question_queue)`, and completion carries status
`COMPLETED` (so answering the last question of a queue of length 3 at
index 2, as the witness instantiates, completes the conversation). -/
theorem handle_preserves_phase_queue_invariant
    (c : Conversation) (message : String)
    (ext : String → Except Unit JobRequirements)
    (gen : JobRequirements → Except Unit (List Question))
    (hwf : wellFormed c)
    (hok : isSuccess (handle c message ext gen).fst = true) :
    phaseQueueInvariant (handle c message ext gen).snd := by
  obtain ⟨hq, hi⟩ := hwf
  obtain ⟨id, ph, st, reqs, queue, idx, ans, ver⟩ := c
  cases ph with
  | initialPhase =>
    have hidx : idx = 0 := hi (Or.inl rfl)
    subst hidx
    cases hext : ext message with
    | error e =>
      simp [handle, runInitialStep, hext, isSuccess] at hok
    | ok req =>
      cases hgen : gen req with
      | error e =>
        simp [handle, runInitialStep, runGenerationStep, hext, hgen,
          isSuccess] at hok
      | ok newQueue =>
        cases newQueue with
        | nil =>
          simp [handle, runInitialStep, runGenerationStep, hext, hgen,
            phaseQueueInvariant]
        | cons q qs =>
          simp [handle, runInitialStep, runGenerationStep, hext, hgen,
            phaseQueueInvariant]
  | questioning =>
    have hlt : idx < queue.length := hq rfl
    by_cases hend : idx + 1 = queue.length
    · simp [handle, runQuestioningStep, hend, phaseQueueInvariant]
    · have : idx + 1 < queue.length := Nat.lt_of_le_of_ne hlt hend
      simp [handle, runQuestioningStep, hend, phaseQueueInvariant, this]
  | completed =>
    simp [handle, isSuccess] at hok
  | errorPhase =>
    have hidx : idx = 0 := hi (Or.inr rfl)
    subst hidx
    cases reqs with
    | none =>
      cases hext : ext message with
      | error e =>
        simp [handle, runInitialStep, hext, isSuccess] at hok
      | ok req =>
        cases hgen : gen req with
        | error e =>
          simp [handle, runInitialStep, runGenerationStep, hext, hgen,
            isSuccess] at hok
        | ok newQueue =>
          cases newQueue with
          | nil =>
            simp [handle, runInitialStep, runGenerationStep, hext, hgen,
              phaseQueueInvariant]
          | cons q qs =>
            simp [handle, runInitialStep, runGenerationStep, hext, hgen,
              phaseQueueInvariant]
    | some req =>
      cases hgen : gen req with
      | error e =>
        simp [handle, runGenerationStep, hgen, isSuccess] at hok
      | ok newQueue =>
        cases newQueue with
        | nil =>
          simp [handle, runGenerationStep, hgen, phaseQueueInvariant]
        | cons q qs =>
          simp [handle, runGenerationStep, hgen, phaseQueueInvariant]

/-- Witness for C1, instantiating spec §8 Example 2: a `QUESTIONING`
conversation with a queue of length 3 at index 2 receives one more answer;
the handle call succeeds, the invariant holds afterwards, and the phase
and status are `COMPLETED`. -/
theorem handle_preserves_phase_queue_invariant_witness :
    phaseQueueInvariant
      (handle exampleMidConversation "full ownership" extractOk generateOk).snd ∧
    (handle exampleMidConversation "full ownership" extractOk generateOk).snd.phase
      = ConversationPhase.completed ∧
    (handle exampleMidConversation "full ownership" extractOk generateOk).snd.status
      = ConversationStatus.completed :=
  ⟨handle_preserves_phase_queue_invariant exampleMidConversation
      "full ownership" extractOk generateOk (by decide) (by decide),
    by decide, by decide⟩

/-- Claim C4: on every successful `handle` call the response's
`next_question` is present exactly when the updated conversation is in
phase `QUESTIONING`, and in that case it carries
`question_queue[current_index].text` of the updated entity. -/
theorem handle_next_question_spec
    (c : Conversation) (message : String)
    (ext : String → Except Unit JobRequirements)
    (gen : JobRequirements → Except Unit (List Question))
    (r : HandleResponse)
    (hr : (handle c message ext gen).fst = .ok r) :
    r.next_question =
      (if (handle c message ext gen).snd.phase = .questioning then
        some (((handle c message ext gen).snd.question_queue.getD
          (handle c message ext gen).snd.current_index defaultQuestion).text)
      else none) := by
  obtain ⟨id, ph, st, reqs, queue, idx, ans, ver⟩ := c
  cases ph with
  | initialPhase =>
    cases hext : ext message with
    | error e => simp [handle, runInitialStep, hext] at hr
    | ok req =>
      cases hgen : gen req with
      | error e =>
        simp [handle, runInitialStep, runGenerationStep, hext, hgen] at hr
      | ok newQueue =>
        cases newQueue with
        | nil =>
          simp [handle, runInitialStep, runGenerationStep, hext, hgen,
            buildResponse] at hr ⊢
          simp [← hr]
        | cons q qs =>
          simp [handle, runInitialStep, runGenerationStep, hext, hgen,
            buildResponse] at hr ⊢
          simp [← hr]
  | questioning =>
    by_cases hend : idx + 1 = queue.length
    · simp [handle, runQuestioningStep, hend, buildResponse] at hr ⊢
      simp [← hr]
    · simp [handle, runQuestioningStep, hend, buildResponse] at hr ⊢
      simp [← hr]
  | completed => simp [handle] at hr
  | errorPhase =>
    cases reqs with
    | none =>
      cases hext : ext message with
      | error e => simp [handle, runInitialStep, hext] at hr
      | ok req =>
        cases hgen : gen req with
        | error e =>
          simp [handle, runInitialStep, runGenerationStep, hext, hgen] at hr
        | ok newQueue =>
          cases newQueue with
          | nil =>
            simp [handle, runInitialStep, runGenerationStep, hext, hgen,
              buildResponse] at hr ⊢
            simp [← hr]
          | cons q qs =>
            simp [handle, runInitialStep, runGenerationStep, hext, hgen,
              buildResponse] at hr ⊢
            simp [← hr]
    | some req =>
      cases hgen : gen req with
      | error e => simp [handle, runGenerationStep, hgen] at hr
      | ok newQueue =>
        cases newQueue with
        | nil =>
          simp [handle, runGenerationStep, hgen, buildResponse] at hr ⊢
          simp [← hr]
        | cons q qs =>
          simp [handle, runGenerationStep, hgen, buildResponse] at hr ⊢
          simp [← hr]

/-- Witness for C4: starting a conversation whose generator returns a
one-question queue; the response's `next_question` carries the text of the
question at the updated current index. -/
theorem handle_next_question_spec_witness :
    (responseOf (handle exampleInitialConversation "I need a VP of Sales"
        extractOk generateOk).fst).next_question =
      (if (handle exampleInitialConversation "I need a VP of Sales"
          extractOk generateOk).snd.phase = .questioning then
        some (((handle exampleInitialConversation "I need a VP of Sales"
            extractOk generateOk).snd.question_queue.getD
          (handle exampleInitialConversation "I need a VP of Sales"
            extractOk generateOk).snd.current_index defaultQuestion).text)
      else none) :=
  handle_next_question_spec exampleInitialConversation "I need a VP of Sales"
    extractOk generateOk
    (responseOf (handle exampleInitialConversation "I need a VP of Sales"
      extractOk generateOk).fst) (by rfl)

/-- Claim C5: every successful `handle` transition increments `version` by
exactly 1 and never decreases `current_index`; a save whose expected
version matches the pre-read version is accepted, while after the
transition a replay carrying the same pre-read version is rejected with a
conflict, and in general any save against a stored entity whose version no
longer matches the expected one is rejected and applies no change. -/
theorem handle_version_and_conflict
    (c : Conversation) (message : String)
    (ext : String → Except Unit JobRequirements)
    (gen : JobRequirements → Except Unit (List Question))
    (entity2 stored entity : Conversation) (v : Nat)
    (hwf : wellFormed c)
    (hok : isSuccess (handle c message ext gen).fst = true)
    (hv : stored.version ≠ v) :
    (handle c message ext gen).snd.version = c.version + 1 ∧
    c.current_index ≤ (handle c message ext gen).snd.current_index ∧
    saveConversation c ((handle c message ext gen).snd) c.version =
      .ok ((handle c message ext gen).snd) ∧
    saveConversation ((handle c message ext gen).snd) entity2 c.version =
      .error () ∧
    saveConversation stored entity v = .error () := by
  have hmain : (handle c message ext gen).snd.version = c.version + 1 ∧
      c.current_index ≤ (handle c message ext gen).snd.current_index := by
    obtain ⟨hq, hi⟩ := hwf
    obtain ⟨id, ph, st, reqs, queue, idx, ans, ver⟩ := c
    cases ph with
    | initialPhase =>
      have hidx : idx = 0 := hi (Or.inl rfl)
      subst hidx
      cases hext : ext message with
      | error e => simp [handle, runInitialStep, hext, isSuccess] at hok
      | ok req =>
        cases hgen : gen req with
        | error e =>
          simp [handle, runInitialStep, runGenerationStep, hext, hgen,
            isSuccess] at hok
        | ok newQueue =>
          cases newQueue <;>
            simp [handle, runInitialStep, runGenerationStep, hext, hgen]
    | questioning =>
      by_cases hend : idx + 1 = queue.length
      all_goals simp [handle, runQuestioningStep, hend]
      all_goals omega
    | completed => simp [handle, isSuccess] at hok
    | errorPhase =>
      have hidx : idx = 0 := hi (Or.inr rfl)
      subst hidx
      cases reqs with
      | none =>
        cases hext : ext message with
        | error e => simp [handle, runInitialStep, hext, isSuccess] at hok
        | ok req =>
          cases hgen : gen req with
          | error e =>
            simp [handle, runInitialStep, runGenerationStep, hext, hgen,
              isSuccess] at hok
          | ok newQueue =>
            cases newQueue <;>
              simp [handle, runInitialStep, runGenerationStep, hext, hgen]
      | some req =>
        cases hgen : gen req with
        | error e => simp [handle, runGenerationStep, hgen, isSuccess] at hok
        | ok newQueue =>
          cases newQueue <;> simp [handle, runGenerationStep, hgen]
  refine ⟨hmain.1, hmain.2, ?_, ?_, ?_⟩
  · simp [saveConversation]
  · simp [saveConversation, hmain.1, Nat.succ_ne_self]
  · simp [saveConversation, hv]

/-- Witness for C5: answering the last question of the length-3 queue
increments the version from 5 to 6, keeps the index monotone, commits
against the pre-read version 5, and rejects a replay of version 5 as well
as a save against a mismatched version 99. -/
theorem handle_version_and_conflict_witness :
    (handle exampleMidConversation "full ownership" extractOk generateOk).snd.version
      = exampleMidConversation.version + 1 ∧
    exampleMidConversation.current_index ≤
      (handle exampleMidConversation "full ownership" extractOk generateOk).snd.current_index ∧
    saveConversation exampleMidConversation
      ((handle exampleMidConversation "full ownership" extractOk generateOk).snd)
      exampleMidConversation.version =
      .ok ((handle exampleMidConversation "full ownership" extractOk generateOk).snd) ∧
    saveConversation
      ((handle exampleMidConversation "full ownership" extractOk generateOk).snd)
      exampleCompletedConversation exampleMidConversation.version = .error () ∧
    saveConversation exampleMidConversation exampleCompletedConversation 99 =
      .error () :=
  handle_version_and_conflict exampleMidConversation "full ownership"
    extractOk generateOk exampleCompletedConversation exampleMidConversation
    exampleCompletedConversation 99 (by decide) (by decide) (by decide)

/-- Claim C6: on an `INITIAL` conversation, a failing extractor (or a
failing generator after a successful extraction) moves the phase to
`ERROR` while `requirements`, `question_queue`, `answers` and `version`
keep exactly their pre-call values; retrying the same message on the
`ERROR` conversation behaves exactly like the original `INITIAL` call, and
with succeeding collaborators it completes the step without duplicating
any prior state. -/
theorem handle_error_isolation
    (c : Conversation) (message : String)
    (extBad : String → Except Unit JobRequirements)
    (genAny : JobRequirements → Except Unit (List Question))
    (extGood : String → Except Unit JobRequirements)
    (genBad : JobRequirements → Except Unit (List Question))
    (req : JobRequirements)
    (ext2 : String → Except Unit JobRequirements)
    (gen2 : JobRequirements → Except Unit (List Question))
    (req2 : JobRequirements) (queue2 : List Question)
    (hph : c.phase = .initialPhase) (hreq : c.requirements = none)
    (hF : extBad message = .error ())
    (hOk : extGood message = .ok req)
    (hGF : genBad req = .error ())
    (h2e : ext2 message = .ok req2)
    (h2g : gen2 req2 = .ok queue2) :
    handle c message extBad genAny =
      (.error .extractionFailure, { c with phase := .errorPhase }) ∧
    handle c message extGood genBad =
      (.error .generationFailure, { c with phase := .errorPhase }) ∧
    handle { c with phase := .errorPhase } message ext2 gen2 =
      handle c message ext2 gen2 ∧
    isSuccess (handle c message ext2 gen2).fst = true ∧
    (handle c message ext2 gen2).snd.answers = c.answers ∧
    (handle c message ext2 gen2).snd.requirements = some req2 := by
  cases queue2 <;>
    refine ⟨?_, ?_, ?_, ?_, ?_, ?_⟩ <;>
      simp [handle, runInitialStep, runGenerationStep, hph, hreq, hF, hOk,
        hGF, h2e, h2g, isSuccess]

/-- Witness for C6: on a fresh conversation, a failing extractor and a
failing generator each move only the phase to `ERROR`, and the retry with
succeeding collaborators completes without duplicating prior state. -/
theorem handle_error_isolation_witness :
    handle exampleInitialConversation "I need a VP of Sales" extractFail generateOk =
      (.error .extractionFailure,
        { exampleInitialConversation with phase := .errorPhase }) ∧
    handle exampleInitialConversation "I need a VP of Sales" extractOk generateFail =
      (.error .generationFailure,
        { exampleInitialConversation with phase := .errorPhase }) ∧
    handle { exampleInitialConversation with phase := .errorPhase }
        "I need a VP of Sales" extractOk generateOk =
      handle exampleInitialConversation "I need a VP of Sales" extractOk generateOk ∧
    isSuccess (handle exampleInitialConversation "I need a VP of Sales"
      extractOk generateOk).fst = true ∧
    (handle exampleInitialConversation "I need a VP of Sales"
      extractOk generateOk).snd.answers = exampleInitialConversation.answers ∧
    (handle exampleInitialConversation "I need a VP of Sales"
      extractOk generateOk).snd.requirements = some exampleRequirements :=
  handle_error_isolation exampleInitialConversation "I need a VP of Sales"
    extractFail generateOk extractOk generateFail exampleRequirements
    extractOk generateOk exampleRequirements [exampleQ1]
    rfl rfl rfl rfl rfl rfl rfl

/-- Claim C7: a conversation in phase `COMPLETED` rejects any further
state-changing message with `ConversationClosedError`, the returned entity
is exactly the unchanged conversation (so `version` and every other field
are untouched), the read-only `progress` view remains available and
reports completion, and the UI disables its input for a completed
conversation. -/
theorem handle_rejects_completed
    (c : Conversation) (message : String)
    (ext : String → Except Unit JobRequirements)
    (gen : JobRequirements → Except Unit (List Question))
    (b : Bool)
    (hc : c.phase = .completed) :
    handle c message ext gen = (.error .conversationClosed, c) ∧
    (progress c).is_complete = true ∧
    chatInputDisabled b TsConversationPhase.completed = true := by
  refine ⟨by simp [handle, hc], by simp [progress, hc], ?_⟩
  cases b <;> rfl

/-- Witness for C7: sending a further message to a completed conversation
returns the closed error and leaves the entity untouched. -/
theorem handle_rejects_completed_witness :
    handle exampleCompletedConversation "one more message" extractOk generateOk =
      (.error .conversationClosed, exampleCompletedConversation) ∧
    (progress exampleCompletedConversation).is_complete = true ∧
    chatInputDisabled false TsConversationPhase.completed = true :=
  handle_rejects_completed exampleCompletedConversation "one more message"
    extractOk generateOk false rfl

/-- Claim C10: every failure path of `chatApi.sendMessage` and
`chatApi.sendConversationMessage` produces an `ApiError`: a rejected fetch
yields the status-0 connection-failure error; a non-OK HTTP response
yields an `ApiError` carrying that HTTP status and the decoded error body
(empty object when the body fails to decode) with the `detail` field or
the `HTTP status: statusText` fallback as message; and a payload-decoding
failure on an OK response also yields the status-0 connection-failure
error. -/
theorem chatApi_failures_are_api_errors
    (rc : HttpResponse ChatResponse) (rv : HttpResponse TsConversationResponse)
    (rc2 : HttpResponse ChatResponse) (rv2 : HttpResponse TsConversationResponse)
    (hrc : rc.ok = false) (hrv : rv.ok = false)
    (hrc2 : rc2.ok = true) (hrc2j : rc2.okJson = .error ())
    (hrv2 : rv2.ok = true) (hrv2j : rv2.okJson = .error ()) :
    sendMessage (.error ()) =
      .error { message := connectionFailureMessage, status := 0, response := none } ∧
    sendConversationMessage (.error ()) =
      .error { message := connectionFailureMessage, status := 0, response := none } ∧
    sendMessage (.ok rc) =
      .error { message := jsDetailOr (errorBodyOf rc.errorJson).detail
                 (httpStatusMessage rc.status rc.statusText)
               status := rc.status
               response := some (errorBodyOf rc.errorJson) } ∧
    sendConversationMessage (.ok rv) =
      .error { message := jsDetailOr (errorBodyOf rv.errorJson).detail
                 (httpStatusMessage rv.status rv.statusText)
               status := rv.status
               response := some (errorBodyOf rv.errorJson) } ∧
    sendMessage (.ok rc2) =
      .error { message := connectionFailureMessage, status := 0, response := none } ∧
    sendConversationMessage (.ok rv2) =
      .error { message := connectionFailureMessage, status := 0, response := none } := by
  refine ⟨rfl, rfl, ?_, ?_, ?_, ?_⟩
  · simp [sendMessage, fetchJson, hrc]
  · simp [sendConversationMessage, fetchJson, hrv]
  · simp [sendMessage, fetchJson, hrc2, hrc2j]
  · simp [sendConversationMessage, fetchJson, hrv2, hrv2j]

/-- Witness for C10: a 404 with decodable body, a 500 with an undecodable
body, and OK responses with undecodable payloads all map to the stated
`ApiError` values. -/
theorem chatApi_failures_are_api_errors_witness :
    sendMessage (.error ()) =
      .error { message := connectionFailureMessage, status := 0, response := none } ∧
    sendConversationMessage (.error ()) =
      .error { message := connectionFailureMessage, status := 0, response := none } ∧
    sendMessage (.ok exampleErrChat) =
      .error { message := jsDetailOr (errorBodyOf exampleErrChat.errorJson).detail
                 (httpStatusMessage exampleErrChat.status exampleErrChat.statusText)
               status := exampleErrChat.status
               response := some (errorBodyOf exampleErrChat.errorJson) } ∧
    sendConversationMessage (.ok exampleErrConv) =
      .error { message := jsDetailOr (errorBodyOf exampleErrConv.errorJson).detail
                 (httpStatusMessage exampleErrConv.status exampleErrConv.statusText)
               status := exampleErrConv.status
               response := some (errorBodyOf exampleErrConv.errorJson) } ∧
    sendMessage (.ok exampleBadJsonChat) =
      .error { message := connectionFailureMessage, status := 0, response := none } ∧
    sendConversationMessage (.ok exampleBadJsonConv) =
      .error { message := connectionFailureMessage, status := 0, response := none } :=
  chatApi_failures_are_api_errors exampleErrChat exampleErrConv
    exampleBadJsonChat exampleBadJsonConv rfl rfl rfl rfl rfl rfl

end ExecAI
